import Mathlib

/-!
Shallow embedding of the SOA-Taller enrollment system
(src/memory_storage.py, src/enrollments_service.py, src/courses_service.py).

Records are kept in insertion-ordered lists, mirroring Python dict values.
Timestamps are carried as opaque strings supplied by the caller (`now`),
standing for `datetime.utcnow().isoformat()`.
-/

/-- A student record (src/memory_storage.py StudentsStorage.create_student).
`created_at` is omitted: no operation reads it. -/
structure Student where
  id : Nat
  name : String
  identification : String
  program : String
  email : Option String
deriving DecidableEq

/-- A course record (src/memory_storage.py CoursesStorage.create_course).
`created_at` is omitted: no operation reads it. -/
structure Course where
  id : Nat
  code : String
  name : String
  credits : Int
  instructor : String
  schedule : String
  total_slots : Int
  available_slots : Int
deriving DecidableEq

/-- Enrollment status: the source only ever stores the strings
'ACTIVE' and 'CANCELLED'. -/
inductive EStatus where
  | active
  | cancelled
deriving DecidableEq

/-- An enrollment record (src/memory_storage.py EnrollmentsStorage.create_enrollment). -/
structure Enrollment where
  id : Nat
  student_id : Nat
  course_code : String
  status : EStatus
  enrollment_date : String
  cancellation_date : Option String
deriving DecidableEq

/-- CoursesStorage: the `data` dict (values in insertion order) plus `next_id`. -/
structure CoursesStorage where
  data : List Course
  next_id : Nat
deriving DecidableEq

/-- EnrollmentsStorage: the `data` dict (values in insertion order) plus `next_id`. -/
structure EnrollmentsStorage where
  data : List Enrollment
  next_id : Nat
deriving DecidableEq

/-- Python's `str.upper()` on the ASCII course codes the system handles:
uppercase every character. -/
def pyUpper (s : String) : String := ⟨s.data.map Char.toUpper⟩

/-- `find_by_field('code', code)`: first stored course whose code matches. -/
def CoursesStorage.get_by_code (s : CoursesStorage) (code : String) : Option Course :=
  s.data.find? (fun c => c.code == code)

/-- `CoursesStorage.create_course`: refuses when a course with the exact same
code is already stored, otherwise appends a fresh record with
`available_slots = total_slots`. -/
def CoursesStorage.create_course (s : CoursesStorage) (code name : String) (credits : Int)
    (instructor schedule : String) (total_slots : Int) :
    Except String (Course × CoursesStorage) :=
  match s.get_by_code code with
  | some _ => .error "Course with this code already exists"
  | none =>
    let c : Course :=
      { id := s.next_id, code := code, name := name, credits := credits,
        instructor := instructor, schedule := schedule,
        total_slots := total_slots, available_slots := total_slots }
    .ok (c, { data := s.data ++ [c], next_id := s.next_id + 1 })

/-- In-place mutation of the first course whose code matches, setting its
`available_slots` to `v` (the object returned by `get_by_code`). -/
def setSlotsFirst : List Course → String → Int → List Course
  | [], _, _ => []
  | c :: rest, code, v =>
    if c.code == code then { c with available_slots := v } :: rest
    else c :: setSlotsFirst rest code v

/-- `CoursesStorage.update_available_slots`: applies `change` to the found
course's `available_slots` and commits only when the result stays within
`[0, total_slots]`; returns false (no mutation) otherwise or when the code
matches no course. -/
def CoursesStorage.update_available_slots (s : CoursesStorage) (course_code : String)
    (change : Int) : Bool × CoursesStorage :=
  match s.get_by_code course_code with
  | none => (false, s)
  | some course =>
    let new_slots := course.available_slots + change
    if 0 ≤ new_slots ∧ new_slots ≤ course.total_slots then
      (true, { s with data := setSlotsFirst s.data course_code new_slots })
    else
      (false, s)

/-- `InMemoryStorage.get_by_id` for enrollments: dict lookup by id. -/
def EnrollmentsStorage.get_by_id (s : EnrollmentsStorage) (item_id : Nat) : Option Enrollment :=
  s.data.find? (fun e => e.id == item_id)

/-- Predicate of `find_active_enrollment`'s loop body. -/
def isActivePair (sid : Nat) (code : String) (e : Enrollment) : Bool :=
  e.student_id == sid && e.course_code == code && e.status == .active

/-- `EnrollmentsStorage.find_active_enrollment`: first ACTIVE record for the pair. -/
def EnrollmentsStorage.find_active_enrollment (s : EnrollmentsStorage) (student_id : Nat)
    (course_code : String) : Option Enrollment :=
  s.data.find? (isActivePair student_id course_code)

/-- `EnrollmentsStorage.create_enrollment`: raises when an ACTIVE record for
the pair exists, otherwise appends a fresh ACTIVE record. -/
def EnrollmentsStorage.create_enrollment (s : EnrollmentsStorage) (student_id : Nat)
    (course_code : String) (now : String) : Except String (Enrollment × EnrollmentsStorage) :=
  match s.find_active_enrollment student_id course_code with
  | some _ => .error "Student is already enrolled in this course"
  | none =>
    let e : Enrollment :=
      { id := s.next_id, student_id := student_id, course_code := course_code,
        status := .active, enrollment_date := now, cancellation_date := none }
    .ok (e, { data := s.data ++ [e], next_id := s.next_id + 1 })

/-- In-place mutation of the first enrollment with the given id: status to
CANCELLED and `cancellation_date` to `now`. -/
def cancelFirst : List Enrollment → Nat → String → List Enrollment
  | [], _, _ => []
  | e :: rest, eid, now =>
    if e.id == eid then { e with status := .cancelled, cancellation_date := some now } :: rest
    else e :: cancelFirst rest eid now

/-- `EnrollmentsStorage.cancel_enrollment`: flips the record to CANCELLED only
when it exists and is ACTIVE; returns false (no mutation) otherwise. -/
def EnrollmentsStorage.cancel_enrollment (s : EnrollmentsStorage) (enrollment_id : Nat)
    (now : String) : Bool × EnrollmentsStorage :=
  match s.get_by_id enrollment_id with
  | none => (false, s)
  | some e =>
    if e.status == .active then
      (true, { s with data := cancelFirst s.data enrollment_id now })
    else
      (false, s)

/-- The three module-level stores of src/memory_storage.py, taken together. -/
structure SystemState where
  students : List Student
  courses : CoursesStorage
  enrollments : EnrollmentsStorage
deriving DecidableEq

/-- `verify_student_exists` (src/enrollments_service.py): dict lookup by id. -/
def verify_student_exists (st : SystemState) (student_id : Nat) : Bool :=
  (st.students.find? (fun s => s.id == student_id)).isSome

/-- `verify_course_exists` (src/enrollments_service.py). -/
def verify_course_exists (st : SystemState) (course_code : String) : Bool :=
  (st.courses.get_by_code course_code).isSome

/-- Outcome of the POST /enrollments handler, one constructor per HTTP reply. -/
inductive EnrollResult where
  | studentNotFound
  | courseNotFound
  | noSeatsAvailable
  | duplicateEnrollment
  | created (e : Enrollment)
deriving DecidableEq

/-- `enroll_in_course` (src/enrollments_service.py lines 120-197), from the
point where `student_id` and `course_code` have been extracted: uppercases
the code, checks both existences, reserves a slot first (`adjust -1`),
then creates the enrollment, releasing the slot (`adjust +1`) when creation
raises the duplicate error. -/
def enroll_in_course (st : SystemState) (student_id : Nat) (course_code : String)
    (now : String) : EnrollResult × SystemState :=
  let code := pyUpper course_code
  if ¬ verify_student_exists st student_id then (.studentNotFound, st)
  else if ¬ verify_course_exists st code then (.courseNotFound, st)
  else
    let reserved := st.courses.update_available_slots code (-1)
    if ¬ reserved.1 then (.noSeatsAvailable, st)
    else
      let st1 : SystemState := { st with courses := reserved.2 }
      match st1.enrollments.create_enrollment student_id code now with
      | .error _ =>
        let released := st1.courses.update_available_slots code 1
        (.duplicateEnrollment, { st1 with courses := released.2 })
      | .ok (e, enr) => (.created e, { st1 with enrollments := enr })

/-- Outcome of the PUT /enrollments/id/cancel handler. -/
inductive CancelResult where
  | notFound
  | alreadyCancelled
  | cancelled (e : Enrollment)
  | internalError
deriving DecidableEq

/-- `cancel_enrollment` handler (src/enrollments_service.py lines 267-295):
404 when the id is unknown, 409 when already CANCELLED; otherwise releases
the slot — DISCARDING the release's boolean result — and then flips the
status through the storage. -/
def cancel_enrollment_service (st : SystemState) (enrollment_id : Nat) (now : String) :
    CancelResult × SystemState :=
  match st.enrollments.get_by_id enrollment_id with
  | none => (.notFound, st)
  | some e =>
    if e.status == .cancelled then (.alreadyCancelled, st)
    else
      let released := st.courses.update_available_slots e.course_code 1
      let st1 : SystemState := { st with courses := released.2 }
      let flipped := st1.enrollments.cancel_enrollment enrollment_id now
      if flipped.1 then
        (.cancelled { e with status := .cancelled, cancellation_date := some now },
         { st1 with enrollments := flipped.2 })
      else
        (.internalError, { st1 with enrollments := flipped.2 })

/-- Count of ACTIVE enrollments carrying a given course code
(`enrollment_counts.get(course_code, 0)` in the source). -/
def activeCount (enr : List Enrollment) (code : String) : Int :=
  ((enr.filter (fun e => e.status == .active && e.course_code == code)).length : Int)

/-- `recalculate_course_slots` (src/memory_storage.py lines 134-160): every
course's `available_slots` becomes `max 0 (total_slots - active count)`. -/
def recalculate_course_slots (st : SystemState) : SystemState :=
  { st with courses :=
    { st.courses with data := st.courses.data.map (fun c =>
        { c with available_slots := (max 0 (c.total_slots - activeCount st.enrollments.data c.code)) }) } }

/-- One entry of the available-combinations response. -/
structure Combination where
  student_id : Nat
  student_name : String
  course_code : String
  course_name : String
  available_slots : Int
deriving DecidableEq

/-- `get_available_combinations` (src/enrollments_service.py lines 81-114):
cross join of students and courses, keeping pairs with no ACTIVE enrollment
and a strictly positive `available_slots`. -/
def get_available_combinations (st : SystemState) : List Combination :=
  st.students.flatMap (fun s =>
    st.courses.data.filterMap (fun c =>
      if (st.enrollments.find_active_enrollment s.id c.code) = none
          ∧ 0 < c.available_slots then
        some { student_id := s.id, student_name := s.name,
               course_code := c.code, course_name := c.name,
               available_slots := c.available_slots }
      else none))

/-- `get_course` handler (src/courses_service.py lines 46-62): uppercases the
path parameter then looks the code up. -/
def get_course (s : CoursesStorage) (course_code : String) : Option Course :=
  s.get_by_code (pyUpper course_code)

/-- A public operation of the enrollment service. -/
inductive Op where
  | enroll (student_id : Nat) (course_code : String) (now : String)
  | cancel (enrollment_id : Nat) (now : String)
  | recalc
deriving DecidableEq

/-- State after one public operation. -/
def applyOp (op : Op) (st : SystemState) : SystemState :=
  match op with
  | .enroll sid code now => (enroll_in_course st sid code now).2
  | .cancel eid now => (cancel_enrollment_service st eid now).2
  | .recalc => recalculate_course_slots st

/-- State after a sequence of public operations. -/
def applyOps (ops : List Op) (st : SystemState) : SystemState :=
  ops.foldl (fun s op => applyOp op s) st

/-- Per-course seat invariant: `0 ≤ available_slots ≤ total_slots`. -/
def courseInv (c : Course) : Prop :=
  0 ≤ c.available_slots ∧ c.available_slots ≤ c.total_slots

instance (c : Course) : Decidable (courseInv c) := by
  unfold courseInv; infer_instance

/-- Seat invariant over the whole course store. -/
def coursesInv (st : SystemState) : Prop :=
  ∀ c ∈ st.courses.data, courseInv c

instance (st : SystemState) : Decidable (coursesInv st) := by
  unfold coursesInv; infer_instance

/-- Two stored records are not both ACTIVE for the same (student, course) pair. -/
def notBothActive (e1 e2 : Enrollment) : Prop :=
  ¬ (e1.student_id = e2.student_id ∧ e1.course_code = e2.course_code ∧
     e1.status = .active ∧ e2.status = .active)

instance (e1 e2 : Enrollment) : Decidable (notBothActive e1 e2) := by
  unfold notBothActive; infer_instance

/-- At most one ACTIVE enrollment per (student, course) pair: no two distinct
stored records are both ACTIVE with the same pair. -/
def pairInv (st : SystemState) : Prop :=
  st.enrollments.data.Pairwise notBothActive

instance (st : SystemState) : Decidable (pairInv st) := by
  unfold pairInv; infer_instance

/-- One student and one two-seat course, nothing enrolled. -/
def sampleState : SystemState :=
  { students := [{ id := 1, name := "Ana", identification := "11", program := "IS",
                   email := none }],
    courses := { data := [{ id := 1, code := "C1", name := "Curso", credits := 3,
                            instructor := "I", schedule := "S",
                            total_slots := 2, available_slots := 2 }],
                 next_id := 2 },
    enrollments := { data := [], next_id := 1 } }

/-- One student and one single-seat course, nothing enrolled. -/
def tinyState : SystemState :=
  { students := [{ id := 1, name := "Ana", identification := "11", program := "IS",
                   email := none }],
    courses := { data := [{ id := 1, code := "C1", name := "Curso", credits := 3,
                            instructor := "I", schedule := "S",
                            total_slots := 1, available_slots := 1 }],
                 next_id := 2 },
    enrollments := { data := [], next_id := 1 } }

/-- A drifted store: an ACTIVE enrollment although the course already shows
every seat free (reachable through the public release-slot endpoint of
src/courses_service.py). -/
def driftedState : SystemState :=
  { students := [{ id := 1, name := "Ana", identification := "11", program := "IS",
                   email := none }],
    courses := { data := [{ id := 1, code := "C1", name := "Curso", credits := 3,
                            instructor := "I", schedule := "S",
                            total_slots := 2, available_slots := 2 }],
                 next_id := 2 },
    enrollments := { data := [{ id := 1, student_id := 1, course_code := "C1",
                                status := .active, enrollment_date := "t0",
                                cancellation_date := none }],
                     next_id := 2 } }

/-- The record produced by creating a course with the lowercase code "is101". -/
def lowercaseCourse : Course :=
  { id := 1, code := "is101", name := "Prog", credits := 3, instructor := "I",
    schedule := "S", total_slots := 30, available_slots := 30 }

/-- The fresh ACTIVE record `create_enrollment` builds. -/
def newEnrollment (s : EnrollmentsStorage) (sid : Nat) (code now : String) : Enrollment :=
  { id := s.next_id, student_id := sid, course_code := code, status := .active,
    enrollment_date := now, cancellation_date := none }

/-- The enrollment store after `create_enrollment` appends its fresh record. -/
def afterCreate (s : EnrollmentsStorage) (sid : Nat) (code now : String) : EnrollmentsStorage :=
  { data := s.data ++ [newEnrollment s sid code now], next_id := s.next_id + 1 }


/-! ## Ledger helper lemmas -/

/-- Members of `setSlotsFirst` are old members or the found course with the
new slot value. -/
theorem mem_setSlotsFirst (l : List Course) (code : String) (v : Int) (course : Course)
    (hf : l.find? (fun c => c.code == code) = some course) :
    ∀ c' ∈ setSlotsFirst l code v, c' ∈ l ∨ c' = { course with available_slots := v } := by
  induction l with
  | nil => simp [setSlotsFirst]
  | cons hd tl ih =>
    intro c' hc'
    rw [List.find?_cons] at hf
    by_cases hcode : (hd.code == code) = true
    · simp [hcode] at hf
      simp [setSlotsFirst, hcode] at hc'
      rcases hc' with h | h
      · right; rw [h, hf]
      · left; exact List.mem_cons_of_mem _ h
    · simp only [Bool.not_eq_true] at hcode
      simp [hcode] at hf
      simp [setSlotsFirst, hcode] at hc'
      rcases hc' with h | h
      · left; simp [h]
      · rcases ih hf c' h with h2 | h2
        · left; exact List.mem_cons_of_mem _ h2
        · right; exact h2

/-- `update_available_slots` preserves the per-course seat invariant. -/
theorem update_slots_courseInv (s : CoursesStorage) (code : String) (change : Int)
    (h : ∀ c ∈ s.data, courseInv c) :
    ∀ c ∈ (s.update_available_slots code change).2.data, courseInv c := by
  unfold CoursesStorage.update_available_slots
  cases hf : s.get_by_code code with
  | none => simpa using h
  | some course =>
    by_cases hguard : 0 ≤ course.available_slots + change ∧
        course.available_slots + change ≤ course.total_slots
    · simp only [hguard, if_pos]
      intro c' hc'
      rcases mem_setSlotsFirst s.data code (course.available_slots + change) course hf c' hc'
        with h2 | h2
      · exact h c' h2
      · rw [h2]
        exact ⟨hguard.1, hguard.2⟩
    · simp only [hguard, if_neg, not_false_iff]
      simpa using h

/-- When `update_available_slots` reports failure the store is unchanged. -/
theorem update_slots_fail_eq (s : CoursesStorage) (code : String) (change : Int)
    (h : (s.update_available_slots code change).1 = false) :
    (s.update_available_slots code change).2 = s := by
  unfold CoursesStorage.update_available_slots at *
  cases hf : s.get_by_code code with
  | none => simp [hf]
  | some course =>
    rw [hf] at h
    by_cases hguard : 0 ≤ course.available_slots + change ∧
        course.available_slots + change ≤ course.total_slots
    · simp [hguard] at h
    · simp [hguard]

/-- When `update_available_slots` reports success the bound check held for the
course the code lookup found. -/
theorem update_slots_success_bounds (s : CoursesStorage) (code : String) (change : Int)
    (course : Course) (hf : s.get_by_code code = some course)
    (h : (s.update_available_slots code change).1 = true) :
    0 ≤ course.available_slots + change ∧
      course.available_slots + change ≤ course.total_slots := by
  unfold CoursesStorage.update_available_slots at h
  rw [hf] at h
  by_cases hguard : 0 ≤ course.available_slots + change ∧
      course.available_slots + change ≤ course.total_slots
  · exact hguard
  · simp [hguard] at h

/-- `find?` by code after `setSlotsFirst` finds the updated course. -/
theorem find?_setSlotsFirst (l : List Course) (code : String) (v : Int) (course : Course)
    (hf : l.find? (fun c => c.code == code) = some course) :
    (setSlotsFirst l code v).find? (fun c => c.code == code) =
      some { course with available_slots := v } := by
  induction l with
  | nil => simp at hf
  | cons hd tl ih =>
    rw [List.find?_cons] at hf
    by_cases hcode : (hd.code == code) = true
    · simp [hcode] at hf
      subst hf
      simp [setSlotsFirst, hcode, List.find?_cons]
    · simp only [Bool.not_eq_true] at hcode
      simp [hcode] at hf
      simp [setSlotsFirst, hcode, List.find?_cons, ih hf]

/-- Two successive slot writes collapse to the second. -/
theorem setSlotsFirst_setSlotsFirst (l : List Course) (code : String) (v w : Int) :
    setSlotsFirst (setSlotsFirst l code v) code w = setSlotsFirst l code w := by
  induction l with
  | nil => simp [setSlotsFirst]
  | cons hd tl ih =>
    by_cases hcode : (hd.code == code) = true
    · simp [setSlotsFirst, hcode]
    · simp only [Bool.not_eq_true] at hcode
      simp [setSlotsFirst, hcode, ih]

/-- Writing back the slot count of the course `find?` returns is a no-op. -/
theorem setSlotsFirst_self (l : List Course) (code : String) (course : Course)
    (hf : l.find? (fun c => c.code == code) = some course) :
    setSlotsFirst l code course.available_slots = l := by
  induction l with
  | nil => simp [setSlotsFirst]
  | cons hd tl ih =>
    rw [List.find?_cons] at hf
    by_cases hcode : (hd.code == code) = true
    · simp [hcode] at hf
      subst hf
      simp [setSlotsFirst, hcode]
    · simp only [Bool.not_eq_true] at hcode
      simp [hcode] at hf
      simp [setSlotsFirst, hcode, ih hf]

/-- A successful reserve (`-1`) followed by a release (`+1`) restores the
course store exactly, provided the course satisfied the seat invariant. -/
theorem update_reserve_release (s : CoursesStorage) (code : String) (course : Course)
    (hf : s.get_by_code code = some course)
    (hub : course.available_slots ≤ course.total_slots)
    (hres : (s.update_available_slots code (-1)).1 = true) :
    (s.update_available_slots code (-1)).2.update_available_slots code 1 = (true, s) := by
  have hguard := update_slots_success_bounds s code (-1) course hf hres
  have hs2 : (s.update_available_slots code (-1)).2 =
      { s with data := setSlotsFirst s.data code (course.available_slots + (-1)) } := by
    unfold CoursesStorage.update_available_slots
    rw [hf]
    simp [hguard]
  rw [hs2]
  have hf2 : ({ s with data := setSlotsFirst s.data code (course.available_slots + (-1)) } :
      CoursesStorage).get_by_code code =
      some { course with available_slots := course.available_slots + (-1) } := by
    unfold CoursesStorage.get_by_code
    exact find?_setSlotsFirst s.data code _ course hf
  unfold CoursesStorage.update_available_slots
  rw [hf2]
  have harith : course.available_slots + (-1) + 1 = course.available_slots := by ring
  have hguard2 : 0 ≤ course.available_slots + (-1) + 1 ∧
      course.available_slots + (-1) + 1 ≤ course.total_slots := by
    constructor
    · omega
    · omega
  simp only [hguard2, if_pos, and_true]
  rw [harith]
  have : setSlotsFirst (setSlotsFirst s.data code (course.available_slots + (-1))) code
      course.available_slots = s.data := by
    rw [setSlotsFirst_setSlotsFirst]
    exact setSlotsFirst_self s.data code course hf
  simp [this]

/-! ## Enrollment store helper lemmas -/

/-- Members after `cancelFirst` are old members or carry status CANCELLED. -/
theorem mem_cancelFirst (l : List Enrollment) (eid : Nat) (now : String) :
    ∀ x ∈ cancelFirst l eid now, x ∈ l ∨ x.status = .cancelled := by
  induction l with
  | nil => simp [cancelFirst]
  | cons hd tl ih =>
    intro x hx
    by_cases hid : (hd.id == eid) = true
    · simp [cancelFirst, hid] at hx
      rcases hx with h | h
      · right; rw [h]
      · left; exact List.mem_cons_of_mem _ h
    · simp only [Bool.not_eq_true] at hid
      simp [cancelFirst, hid] at hx
      rcases hx with h | h
      · left; simp [h]
      · rcases ih x h with h2 | h2
        · left; exact List.mem_cons_of_mem _ h2
        · right; exact h2

/-- `cancelFirst` preserves the one-ACTIVE-per-pair shape: it only ever turns
a record's status into CANCELLED. -/
theorem pairwise_cancelFirst (l : List Enrollment) (eid : Nat) (now : String)
    (h : l.Pairwise notBothActive) : (cancelFirst l eid now).Pairwise notBothActive := by
  induction l with
  | nil => simp [cancelFirst]
  | cons hd tl ih =>
    rcases List.pairwise_cons.mp h with ⟨hhd, htl⟩
    by_cases hid : (hd.id == eid) = true
    · simp only [cancelFirst, hid, if_pos]
      refine List.pairwise_cons.mpr ⟨?_, htl⟩
      intro b _
      unfold notBothActive
      rintro ⟨_, _, hstat, _⟩
      simp at hstat
    · simp only [Bool.not_eq_true] at hid
      simp only [cancelFirst, hid]
      rw [if_neg (by simp [hid])]
      refine List.pairwise_cons.mpr ⟨?_, ih htl⟩
      intro b hb
      rcases mem_cancelFirst tl eid now b hb with h2 | h2
      · exact hhd b h2
      · unfold notBothActive
        rintro ⟨_, _, _, hstat⟩
        rw [h2] at hstat
        exact absurd hstat (by simp)

/-- `cancelFirst` skips a prefix containing no record with the target id. -/
theorem cancelFirst_append (l1 l2 : List Enrollment) (eid : Nat) (now : String)
    (h : ∀ x ∈ l1, x.id ≠ eid) :
    cancelFirst (l1 ++ l2) eid now = l1 ++ cancelFirst l2 eid now := by
  induction l1 with
  | nil => simp
  | cons hd tl ih =>
    have hhd : hd.id ≠ eid := h hd (by simp)
    simp only [List.cons_append, cancelFirst]
    rw [if_neg (by simp [hhd])]
    exact congrArg (hd :: ·) (ih (fun x hx => h x (List.mem_cons_of_mem _ hx)))

/-! ## Invariant preservation by the public operations -/

/-- Reconciliation keeps every course within `[0, total_slots]`. -/
theorem recalc_preserves_coursesInv (st : SystemState) (h : coursesInv st) :
    coursesInv (recalculate_course_slots st) := by
  unfold coursesInv at *
  unfold recalculate_course_slots
  intro c hc
  simp only [List.mem_map] at hc
  obtain ⟨c0, hc0, rfl⟩ := hc
  have h0 := h c0 hc0
  unfold courseInv at *
  refine ⟨le_max_left _ _, ?_⟩
  apply max_le
  · linarith [h0.1, h0.2]
  · have hcount : (0:Int) ≤ activeCount st.enrollments.data c0.code := by
      unfold activeCount
      exact Int.natCast_nonneg _
    linarith

/-- The enroll handler keeps every course within `[0, total_slots]`. -/
theorem enroll_preserves_coursesInv (st : SystemState) (sid : Nat) (raw now : String)
    (h : coursesInv st) : coursesInv (enroll_in_course st sid raw now).2 := by
  unfold coursesInv at *
  unfold enroll_in_course
  dsimp only
  split
  · exact h
  · split
    · exact h
    · split
      · exact h
      · split
        · exact update_slots_courseInv _ _ _ (update_slots_courseInv _ _ _ h)
        · exact update_slots_courseInv _ _ _ h

/-- The cancel handler keeps every course within `[0, total_slots]`. -/
theorem cancel_preserves_coursesInv (st : SystemState) (eid : Nat) (now : String)
    (h : coursesInv st) : coursesInv (cancel_enrollment_service st eid now).2 := by
  unfold coursesInv at *
  unfold cancel_enrollment_service
  dsimp only
  split
  · exact h
  · split
    · exact h
    · split
      · exact update_slots_courseInv _ _ _ h
      · exact update_slots_courseInv _ _ _ h

/-- Any single public operation keeps every course within `[0, total_slots]`. -/
theorem applyOp_preserves_coursesInv (op : Op) (st : SystemState) (h : coursesInv st) :
    coursesInv (applyOp op st) := by
  cases op with
  | enroll sid code now => exact enroll_preserves_coursesInv st sid code now h
  | cancel eid now => exact cancel_preserves_coursesInv st eid now h
  | recalc => exact recalc_preserves_coursesInv st h

/-- The storage-level cancel keeps at most one ACTIVE record per pair. -/
theorem cancel_storage_pairwise (s : EnrollmentsStorage) (eid : Nat) (now : String)
    (h : s.data.Pairwise notBothActive) :
    (s.cancel_enrollment eid now).2.data.Pairwise notBothActive := by
  unfold EnrollmentsStorage.cancel_enrollment
  split
  · exact h
  · split
    · exact pairwise_cancelFirst _ _ _ h
    · exact h

/-- The enroll handler keeps at most one ACTIVE record per pair. -/
theorem enroll_preserves_pairInv (st : SystemState) (sid : Nat) (raw now : String)
    (h : pairInv st) : pairInv (enroll_in_course st sid raw now).2 := by
  unfold pairInv at *
  unfold enroll_in_course
  dsimp only
  split
  · exact h
  · split
    · exact h
    · split
      · exact h
      · split
        · exact h
        · rename_i hres e enr heq
          unfold EnrollmentsStorage.create_enrollment at heq
          cases hfind : st.enrollments.find_active_enrollment sid (pyUpper raw) with
          | some e0 =>
            rw [hfind] at heq
            simp at heq
          | none =>
            rw [hfind] at heq
            simp only [Except.ok.injEq, Prod.mk.injEq] at heq
            obtain ⟨-, henr⟩ := heq
            rw [← henr]
            simp only [List.pairwise_append]
            refine ⟨h, by simp, ?_⟩
            intro a ha b hb
            simp only [List.mem_singleton] at hb
            subst hb
            unfold notBothActive
            rintro ⟨hsid, hcode, hact, -⟩
            have hnone := List.find?_eq_none.mp hfind a ha
            unfold isActivePair at hnone
            simp only [Bool.and_eq_true, beq_iff_eq] at hnone
            exact hnone ⟨⟨hsid, hcode⟩, hact⟩

/-- The cancel handler keeps at most one ACTIVE record per pair. -/
theorem cancel_preserves_pairInv (st : SystemState) (eid : Nat) (now : String)
    (h : pairInv st) : pairInv (cancel_enrollment_service st eid now).2 := by
  unfold pairInv at *
  unfold cancel_enrollment_service
  dsimp only
  split
  · exact h
  · split
    · exact h
    · split
      · exact cancel_storage_pairwise st.enrollments eid now h
      · exact cancel_storage_pairwise st.enrollments eid now h

/-- Any single public operation keeps at most one ACTIVE record per pair. -/
theorem applyOp_preserves_pairInv (op : Op) (st : SystemState) (h : pairInv st) :
    pairInv (applyOp op st) := by
  cases op with
  | enroll sid code now => exact enroll_preserves_pairInv st sid code now h
  | cancel eid now => exact cancel_preserves_pairInv st eid now h
  | recalc => exact h

/-! ## Claim theorems -/

/-- C1: for every course the invariant `0 ≤ available_slots ≤ total_slots`
holds after any sequence of enroll, cancel and recalculate operations,
starting from any state satisfying it. -/
theorem C1_seat_invariant_any_sequence (ops : List Op) (st : SystemState)
    (h : coursesInv st) : coursesInv (applyOps ops st) := by
  induction ops generalizing st with
  | nil => exact h
  | cons op rest ih => exact ih (applyOp op st) (applyOp_preserves_coursesInv op st h)

/-- Witness for C1 at a concrete state and operation sequence. -/
theorem C1_seat_invariant_witness :
    coursesInv sampleState ∧
      coursesInv (applyOps [Op.enroll 1 "c1" "t0", Op.cancel 1 "t1", Op.recalc] sampleState) :=
  ⟨by decide,
   C1_seat_invariant_any_sequence [Op.enroll 1 "c1" "t0", Op.cancel 1 "t1", Op.recalc]
     sampleState (by decide)⟩

/-- C2: at most one ACTIVE enrollment exists per (student, course) pair in
every state reachable by the public operations from a state satisfying the
invariant. -/
theorem C2_at_most_one_active (ops : List Op) (st : SystemState)
    (h : pairInv st) : pairInv (applyOps ops st) := by
  induction ops generalizing st with
  | nil => exact h
  | cons op rest ih => exact ih (applyOp op st) (applyOp_preserves_pairInv op st h)

/-- Witness for C2 at a concrete state and operation sequence. -/
theorem C2_at_most_one_active_witness :
    pairInv sampleState ∧
      pairInv (applyOps [Op.enroll 1 "c1" "t0", Op.enroll 1 "C1" "t1", Op.recalc] sampleState) :=
  ⟨by decide,
   C2_at_most_one_active [Op.enroll 1 "c1" "t0", Op.enroll 1 "C1" "t1", Op.recalc]
     sampleState (by decide)⟩

/-- C5: `recalculate_course_slots` is idempotent — a second run returns the
very same state, hence the same seat counts. -/
theorem C5_recalculate_idempotent (st : SystemState) :
    recalculate_course_slots (recalculate_course_slots st) = recalculate_course_slots st := by
  simp only [recalculate_course_slots, List.map_map]
  rfl

/-- C10: `update_available_slots` on a code matching no stored course returns
false with the store untouched — the same refusal signal (false, no
mutation) produced when a found course's bound check fails. -/
theorem C10_unknown_code_refused (s : CoursesStorage) (code : String) (change : Int)
    (h : s.get_by_code code = none) :
    s.update_available_slots code change = (false, s) ∧
      ∀ (s2 : CoursesStorage) (c : Course), s2.get_by_code code = some c →
        ¬ (0 ≤ c.available_slots + change ∧ c.available_slots + change ≤ c.total_slots) →
        s2.update_available_slots code change = (false, s2) := by
  constructor
  · unfold CoursesStorage.update_available_slots
    rw [h]
  · intro s2 c hf hguard
    unfold CoursesStorage.update_available_slots
    rw [hf]
    simp only [hguard, if_neg, not_false_iff]

/-- Witness for C10: unknown course code "ZZ" in the sample store. -/
theorem C10_unknown_code_witness :
    sampleState.courses.get_by_code "ZZ" = none ∧
      sampleState.courses.update_available_slots "ZZ" (-1) = (false, sampleState.courses) :=
  ⟨by decide, (C10_unknown_code_refused sampleState.courses "ZZ" (-1) (by decide)).1⟩

/-- C4 counterexample: in `driftedState` the course already shows every seat
free, so the seat release fails (returns false, no mutation), yet the cancel
call still reports success — refuting "reports success only if both the seat
release and the status transition observably complete". -/
theorem C4_cancel_counterexample :
    (cancel_enrollment_service driftedState 1 "t1").1 =
      .cancelled { id := 1, student_id := 1, course_code := "C1", status := .cancelled,
                   enrollment_date := "t0", cancellation_date := some "t1" } ∧
    (driftedState.courses.update_available_slots "C1" 1).1 = false ∧
    (cancel_enrollment_service driftedState 1 "t1").2.courses = driftedState.courses := by
  decide

/-- C4 amended: cancel fails NotFound on an unknown id and AlreadyCancelled on
a CANCELLED record, leaving all state unchanged; otherwise it attempts the
seat release (keeping whatever that produced, its boolean result discarded)
and flips the status to CANCELLED with a cancellation timestamp, reporting
success whenever the status transition completes — regardless of whether
the seat release succeeded. -/
theorem C4_cancel_amended (st : SystemState) (eid : Nat) (now : String) :
    (st.enrollments.get_by_id eid = none →
      cancel_enrollment_service st eid now = (.notFound, st)) ∧
    (∀ e, st.enrollments.get_by_id eid = some e → e.status = .cancelled →
      cancel_enrollment_service st eid now = (.alreadyCancelled, st)) ∧
    (∀ e, st.enrollments.get_by_id eid = some e → e.status = .active →
      cancel_enrollment_service st eid now =
        (.cancelled { e with status := .cancelled, cancellation_date := some now },
         { st with
            courses := (st.courses.update_available_slots e.course_code 1).2,
            enrollments := { st.enrollments with
                              data := cancelFirst st.enrollments.data eid now } })) := by
  refine ⟨?_, ?_, ?_⟩
  · intro h
    unfold cancel_enrollment_service
    rw [h]
  · intro e he hst
    unfold cancel_enrollment_service
    rw [he]
    simp [hst]
  · intro e he hst
    unfold cancel_enrollment_service
    rw [he]
    have hne : (e.status == EStatus.cancelled) = false := by
      rw [hst]; rfl
    simp only [hne, Bool.false_eq_true, if_false]
    unfold EnrollmentsStorage.cancel_enrollment
    rw [he]
    have hact : (e.status == EStatus.active) = true := by
      rw [hst]; rfl
    simp only [hact, if_true]

/-- C8 counterexample: `create_course` stores the code without normalizing its
case, so a course created as "is101" cannot be found again through the
lookup endpoint — not even with the very string used at creation — because
lookup uppercases the query. -/
theorem C8_case_counterexample :
    ({ data := [], next_id := 1 } : CoursesStorage).create_course "is101" "Prog" 3 "I" "S" 30 =
      .ok (lowercaseCourse, { data := [lowercaseCourse], next_id := 2 }) ∧
    get_course { data := [lowercaseCourse], next_id := 2 } "is101" = none := by
  exact ⟨rfl, rfl⟩

/-- C8 amended: creation does not case-normalize; it fails with the duplicate
error exactly when a course with the very same code string is present.
Lookup uppercases the query, so a stored course is found under any case
variant of the query precisely when its stored code equals the uppercased
query (as holds for every course the repository itself creates). -/
theorem C8_code_handling_amended (s s1 : CoursesStorage)
    (code q name instructor schedule : String) (credits total : Int) (c0 c : Course) :
    (s.get_by_code code = some c0 →
      s.create_course code name credits instructor schedule total =
        .error "Course with this code already exists") ∧
    (s.create_course code name credits instructor schedule total = .ok (c, s1) →
      pyUpper q = code → get_course s1 q = some c) := by
  constructor
  · intro hdup
    unfold CoursesStorage.create_course
    rw [hdup]
  · intro hok hq
    unfold CoursesStorage.create_course at hok
    cases hf : s.get_by_code code with
    | some c1 => rw [hf] at hok; simp at hok
    | none =>
      rw [hf] at hok
      simp only [Except.ok.injEq, Prod.mk.injEq] at hok
      obtain ⟨hc, hs1⟩ := hok
      unfold get_course CoursesStorage.get_by_code
      rw [hq, ← hs1]
      unfold CoursesStorage.get_by_code at hf
      simp only [List.find?_append, hf, Option.none_or]
      rw [← hc]
      simp [List.find?_cons]

/-- Witness for C8 amended: "IS101" created uppercase is found by the
lowercase query "is101", and re-creating the exact code "IS101" fails. -/
theorem C8_code_handling_witness :
    get_course
      { data := [{ id := 1, code := "IS101", name := "Prog", credits := 3, instructor := "I",
                   schedule := "S", total_slots := 30, available_slots := 30 }], next_id := 2 }
      "is101" =
      some { id := 1, code := "IS101", name := "Prog", credits := 3, instructor := "I",
             schedule := "S", total_slots := 30, available_slots := 30 } ∧
    CoursesStorage.create_course
      { data := [{ id := 1, code := "IS101", name := "Prog", credits := 3, instructor := "I",
                   schedule := "S", total_slots := 30, available_slots := 30 }], next_id := 2 }
      "IS101" "Prog" 3 "I" "S" 30 = .error "Course with this code already exists" :=
  ⟨(C8_code_handling_amended { data := [], next_id := 1 }
      { data := [{ id := 1, code := "IS101", name := "Prog", credits := 3, instructor := "I",
                   schedule := "S", total_slots := 30, available_slots := 30 }], next_id := 2 }
      "IS101" "is101" "Prog" "I" "S" 3 30
      { id := 1, code := "IS101", name := "Prog", credits := 3, instructor := "I",
        schedule := "S", total_slots := 30, available_slots := 30 }
      { id := 1, code := "IS101", name := "Prog", credits := 3, instructor := "I",
        schedule := "S", total_slots := 30, available_slots := 30 }).2 rfl rfl,
   (C8_code_handling_amended
      { data := [{ id := 1, code := "IS101", name := "Prog", credits := 3, instructor := "I",
                   schedule := "S", total_slots := 30, available_slots := 30 }], next_id := 2 }
      { data := [], next_id := 1 }
      "IS101" "IS101" "Prog" "I" "S" 3 30
      { id := 1, code := "IS101", name := "Prog", credits := 3, instructor := "I",
        schedule := "S", total_slots := 30, available_slots := 30 }
      { id := 1, code := "IS101", name := "Prog", credits := 3, instructor := "I",
        schedule := "S", total_slots := 30, available_slots := 30 }).1 rfl⟩

/-- Witness for C4 amended: an unknown id is refused without mutation, and an
ACTIVE record in the drifted store is cancelled with success reported. -/
theorem C4_cancel_amended_witness :
    cancel_enrollment_service sampleState 99 "t" = (.notFound, sampleState) ∧
    cancel_enrollment_service driftedState 1 "t1" =
      (.cancelled { id := 1, student_id := 1, course_code := "C1", status := .cancelled,
                    enrollment_date := "t0", cancellation_date := some "t1" },
       { driftedState with
          courses := (driftedState.courses.update_available_slots "C1" 1).2,
          enrollments := { driftedState.enrollments with
                            data := cancelFirst driftedState.enrollments.data 1 "t1" } }) :=
  ⟨(C4_cancel_amended sampleState 99 "t").1 (by decide),
   (C4_cancel_amended driftedState 1 "t1").2.2
     { id := 1, student_id := 1, course_code := "C1", status := .active,
       enrollment_date := "t0", cancellation_date := none } (by decide) rfl⟩

/-- `create_enrollment` written through the two helper definitions. -/
theorem create_enrollment_eq (s : EnrollmentsStorage) (sid : Nat) (code now : String)
    (h : s.find_active_enrollment sid code = none) :
    s.create_enrollment sid code now = .ok (newEnrollment s sid code now, afterCreate s sid code now) := by
  unfold EnrollmentsStorage.create_enrollment
  rw [h]
  rfl

/-- C3: after both existence checks pass, enroll reserves a seat first; a
failed reservation returns NoSeatsAvailable with the whole state (hence the
enrollment collection) untouched; a successful reservation followed by an
existing ACTIVE pair releases the reserved seat (restoring available_slots
to its pre-call value, the state being exactly the original) and fails
with DuplicateEnrollment; otherwise a fresh ACTIVE enrollment is appended
and returned. -/
theorem C3_enroll_reserve_then_create (st : SystemState) (sid : Nat) (raw now : String)
    (hs : verify_student_exists st sid = true)
    (hc : verify_course_exists st (pyUpper raw) = true)
    (hinv : coursesInv st) :
    ((st.courses.update_available_slots (pyUpper raw) (-1)).1 = false →
      enroll_in_course st sid raw now = (.noSeatsAvailable, st)) ∧
    (∀ d, (st.courses.update_available_slots (pyUpper raw) (-1)).1 = true →
      st.enrollments.find_active_enrollment sid (pyUpper raw) = some d →
      enroll_in_course st sid raw now = (.duplicateEnrollment, st)) ∧
    ((st.courses.update_available_slots (pyUpper raw) (-1)).1 = true →
      st.enrollments.find_active_enrollment sid (pyUpper raw) = none →
      enroll_in_course st sid raw now =
        (.created (newEnrollment st.enrollments sid (pyUpper raw) now),
         { st with
            courses := (st.courses.update_available_slots (pyUpper raw) (-1)).2,
            enrollments := afterCreate st.enrollments sid (pyUpper raw) now })) := by
  refine ⟨?_, ?_, ?_⟩
  · intro hres
    unfold enroll_in_course
    dsimp only
    rw [if_neg (not_not_intro hs), if_neg (not_not_intro hc), if_pos (by simp [hres])]
  · intro d hres hdup
    obtain ⟨c, hcfind⟩ := Option.isSome_iff_exists.mp hc
    have hmem := List.mem_of_find?_eq_some hcfind
    have hrestore := update_reserve_release st.courses (pyUpper raw) c hcfind
      (hinv c hmem).2 hres
    have hcreate : st.enrollments.create_enrollment sid (pyUpper raw) now =
        .error "Student is already enrolled in this course" := by
      unfold EnrollmentsStorage.create_enrollment
      rw [hdup]
    unfold enroll_in_course
    dsimp only
    rw [if_neg (not_not_intro hs), if_neg (not_not_intro hc), if_neg (not_not_intro hres),
        hcreate]
    dsimp only
    rw [hrestore]
  · intro hres hnone
    unfold enroll_in_course
    dsimp only
    rw [if_neg (not_not_intro hs), if_neg (not_not_intro hc), if_neg (not_not_intro hres),
        create_enrollment_eq st.enrollments sid (pyUpper raw) now hnone]

/-- Success of `update_available_slots` follows from the bound check on the
found course. -/
theorem update_slots_true_of (s : CoursesStorage) (code : String) (change : Int) (c : Course)
    (hf : s.get_by_code code = some c)
    (hg : 0 ≤ c.available_slots + change ∧ c.available_slots + change ≤ c.total_slots) :
    (s.update_available_slots code change).1 = true := by
  unfold CoursesStorage.update_available_slots
  rw [hf]
  simp [hg]

/-- After a fresh ACTIVE record is appended for a pair that had none, the pair
lookup finds exactly that record. -/
theorem find_active_after_create (s : EnrollmentsStorage) (sid : Nat) (code now : String)
    (h : s.find_active_enrollment sid code = none) :
    (afterCreate s sid code now).find_active_enrollment sid code =
      some (newEnrollment s sid code now) := by
  unfold EnrollmentsStorage.find_active_enrollment afterCreate at *
  rw [List.find?_append, h, Option.none_or]
  simp [List.find?_cons, isActivePair, newEnrollment]

/-- The enroll handler's duplicate branch: a successful reservation followed
by an existing ACTIVE pair releases the seat and returns the conflict with
the state exactly as before the call. -/
theorem enroll_duplicate_eq (st : SystemState) (sid : Nat) (raw now : String)
    (d : Enrollment) (c : Course)
    (hs : verify_student_exists st sid = true)
    (hcf : st.courses.get_by_code (pyUpper raw) = some c)
    (hcb : c.available_slots ≤ c.total_slots)
    (hres : (st.courses.update_available_slots (pyUpper raw) (-1)).1 = true)
    (hdup : st.enrollments.find_active_enrollment sid (pyUpper raw) = some d) :
    enroll_in_course st sid raw now = (.duplicateEnrollment, st) := by
  have hc : verify_course_exists st (pyUpper raw) = true := by
    unfold verify_course_exists
    rw [hcf]
    rfl
  have hrestore := update_reserve_release st.courses (pyUpper raw) c hcf hcb hres
  have hcreate : st.enrollments.create_enrollment sid (pyUpper raw) now =
      .error "Student is already enrolled in this course" := by
    unfold EnrollmentsStorage.create_enrollment
    rw [hdup]
  unfold enroll_in_course
  dsimp only
  rw [if_neg (not_not_intro hs), if_neg (not_not_intro hc), if_neg (not_not_intro hres),
      hcreate]
  dsimp only
  rw [hrestore]

/-- Inversion of a successful enroll call: recovers the checks that passed,
the reservation, the absence of a prior ACTIVE pair, and the exact shapes
of the returned record and state. -/
theorem enroll_created_inversion (st : SystemState) (sid : Nat) (raw now : String)
    (e : Enrollment) (st1 : SystemState)
    (h : enroll_in_course st sid raw now = (.created e, st1)) :
    verify_student_exists st sid = true ∧
    verify_course_exists st (pyUpper raw) = true ∧
    (st.courses.update_available_slots (pyUpper raw) (-1)).1 = true ∧
    st.enrollments.find_active_enrollment sid (pyUpper raw) = none ∧
    e = newEnrollment st.enrollments sid (pyUpper raw) now ∧
    st1 = { st with
             courses := (st.courses.update_available_slots (pyUpper raw) (-1)).2,
             enrollments := afterCreate st.enrollments sid (pyUpper raw) now } := by
  unfold enroll_in_course at h
  dsimp only at h
  split at h
  · simp at h
  · split at h
    · simp at h
    · split at h
      · simp at h
      · rename_i hns hnc hnr
        split at h
        · simp at h
        · rename_i e0 enr heq
          cases hfind : st.enrollments.find_active_enrollment sid (pyUpper raw) with
          | some d =>
            unfold EnrollmentsStorage.create_enrollment at heq
            rw [hfind] at heq
            simp at heq
          | none =>
            rw [create_enrollment_eq st.enrollments sid (pyUpper raw) now hfind] at heq
            simp only [Except.ok.injEq, Prod.mk.injEq] at heq
            obtain ⟨he0, henr⟩ := heq
            simp only [Prod.mk.injEq, EnrollResult.created.injEq] at h
            obtain ⟨he, hst1⟩ := h
            refine ⟨not_not.mp hns, not_not.mp hnc, not_not.mp hnr, rfl, ?_, ?_⟩
            · rw [← he, ← he0]
            · rw [← hst1, ← henr]

/-- The cancel handler on a found ACTIVE record: releases the seat (keeping
whatever the release produced) and flips the record, reporting success. -/
theorem cancel_service_active_eq (st : SystemState) (eid : Nat) (now : String) (e : Enrollment)
    (he : st.enrollments.get_by_id eid = some e) (hst : e.status = .active) :
    cancel_enrollment_service st eid now =
      (.cancelled { e with status := .cancelled, cancellation_date := some now },
       { st with
          courses := (st.courses.update_available_slots e.course_code 1).2,
          enrollments := { st.enrollments with
                            data := cancelFirst st.enrollments.data eid now } }) := by
  unfold cancel_enrollment_service
  rw [he]
  have hne : (e.status == EStatus.cancelled) = false := by
    rw [hst]; rfl
  simp only [hne, Bool.false_eq_true, if_false]
  unfold EnrollmentsStorage.cancel_enrollment
  rw [he]
  have hact : (e.status == EStatus.active) = true := by
    rw [hst]; rfl
  simp only [hact, if_true]

/-- Witness for C3 at the sample state: the successful-creation branch. -/
theorem C3_enroll_witness :
    enroll_in_course sampleState 1 "c1" "t0" =
      (.created (newEnrollment sampleState.enrollments 1 (pyUpper "c1") "t0"),
       { sampleState with
          courses := (sampleState.courses.update_available_slots (pyUpper "c1") (-1)).2,
          enrollments := afterCreate sampleState.enrollments 1 (pyUpper "c1") "t0" }) :=
  (C3_enroll_reserve_then_create sampleState 1 "c1" "t0" (by decide) (by decide)
    (by decide)).2.2 (by decide) (by decide)

/-- C7 counterexample: on a single-seat course the first enroll succeeds and
fills the course, so the immediate second enroll for the same pair fails
with NoSeatsAvailable — not DuplicateEnrollment — because the handler
reserves the seat before it checks for the duplicate. -/
theorem C7_full_course_counterexample :
    (enroll_in_course tinyState 1 "C1" "t0").1 =
      .created (newEnrollment tinyState.enrollments 1 "C1" "t0") ∧
    (enroll_in_course (enroll_in_course tinyState 1 "C1" "t0").2 1 "C1" "t1").1 =
      .noSeatsAvailable ∧
    (enroll_in_course (enroll_in_course tinyState 1 "C1" "t0").2 1 "C1" "t1").1 ≠
      .duplicateEnrollment := by
  decide

/-- C7 amended: when the course still has a free seat after the first
successful enroll, the immediate second enroll for the same pair fails
with DuplicateEnrollment and leaves the state — in particular
available_slots — exactly as after the first call. -/
theorem C7_second_enroll_amended (st st1 : SystemState) (sid : Nat) (raw now now2 : String)
    (e : Enrollment) (c1 : Course)
    (hinv : coursesInv st)
    (henroll : enroll_in_course st sid raw now = (.created e, st1))
    (hc1 : st1.courses.get_by_code (pyUpper raw) = some c1)
    (havail : 0 < c1.available_slots) :
    enroll_in_course st1 sid raw now2 = (.duplicateEnrollment, st1) := by
  obtain ⟨hs, hc, hres, hfind, he, hst1⟩ := enroll_created_inversion st sid raw now e st1 henroll
  have hinv1 : coursesInv st1 := by
    have h := enroll_preserves_coursesInv st sid raw now hinv
    rw [henroll] at h
    exact h
  have hmem1 := List.mem_of_find?_eq_some hc1
  have hcb1 : c1.available_slots ≤ c1.total_slots := (hinv1 c1 hmem1).2
  have hres2 : (st1.courses.update_available_slots (pyUpper raw) (-1)).1 = true :=
    update_slots_true_of st1.courses (pyUpper raw) (-1) c1 hc1 ⟨by omega, by omega⟩
  have hs1 : verify_student_exists st1 sid = true := by
    rw [hst1]; exact hs
  have hdup1 : st1.enrollments.find_active_enrollment sid (pyUpper raw) =
      some (newEnrollment st.enrollments sid (pyUpper raw) now) := by
    rw [hst1]
    exact find_active_after_create st.enrollments sid (pyUpper raw) now hfind
  exact enroll_duplicate_eq st1 sid raw now2 _ c1 hs1 hc1 hcb1 hres2 hdup1

/-- Witness for C7 amended on the two-seat sample course. -/
theorem C7_second_enroll_witness :
    enroll_in_course (enroll_in_course sampleState 1 "C1" "t0").2 1 "C1" "t1" =
      (.duplicateEnrollment, (enroll_in_course sampleState 1 "C1" "t0").2) :=
  C7_second_enroll_amended sampleState (enroll_in_course sampleState 1 "C1" "t0").2 1 "C1"
    "t0" "t1" (newEnrollment sampleState.enrollments 1 "C1" "t0")
    { id := 1, code := "C1", name := "Curso", credits := 3, instructor := "I", schedule := "S",
      total_slots := 2, available_slots := 1 }
    (by decide) (by decide) (by decide) (by decide)

/-- C6: whenever enroll succeeds, cancelling the returned enrollment id right
away reports success, restores the course store (hence available_slots) to
its pre-enroll value, and leaves no ACTIVE enrollment for the pair. -/
theorem C6_enroll_cancel_roundtrip (st st1 : SystemState) (sid : Nat) (raw now now2 : String)
    (e : Enrollment)
    (hinv : coursesInv st)
    (hids : ∀ en ∈ st.enrollments.data, en.id < st.enrollments.next_id)
    (henroll : enroll_in_course st sid raw now = (.created e, st1)) :
    (cancel_enrollment_service st1 e.id now2).1 =
      .cancelled { e with status := .cancelled, cancellation_date := some now2 } ∧
    (cancel_enrollment_service st1 e.id now2).2.courses = st.courses ∧
    (cancel_enrollment_service st1 e.id now2).2.enrollments.find_active_enrollment
      sid (pyUpper raw) = none := by
  obtain ⟨hs, hc, hres, hfind, he, hst1⟩ := enroll_created_inversion st sid raw now e st1 henroll
  subst he
  subst hst1
  have hgb : (afterCreate st.enrollments sid (pyUpper raw) now).get_by_id
      (newEnrollment st.enrollments sid (pyUpper raw) now).id =
      some (newEnrollment st.enrollments sid (pyUpper raw) now) := by
    unfold EnrollmentsStorage.get_by_id afterCreate
    dsimp only
    rw [List.find?_append]
    have hnone : st.enrollments.data.find?
        (fun x => x.id == (newEnrollment st.enrollments sid (pyUpper raw) now).id) = none := by
      apply List.find?_eq_none.mpr
      intro x hx
      have hlt := hids x hx
      simp only [newEnrollment]
      simp only [beq_iff_eq]
      omega
    rw [hnone, Option.none_or]
    simp [List.find?_cons]
  have hcancel := cancel_service_active_eq
      { st with courses := (st.courses.update_available_slots (pyUpper raw) (-1)).2,
                enrollments := afterCreate st.enrollments sid (pyUpper raw) now }
      (newEnrollment st.enrollments sid (pyUpper raw) now).id now2
      (newEnrollment st.enrollments sid (pyUpper raw) now) hgb rfl
  obtain ⟨c, hcf⟩ := Option.isSome_iff_exists.mp hc
  have hmem := List.mem_of_find?_eq_some hcf
  have hrestore := update_reserve_release st.courses (pyUpper raw) c hcf (hinv c hmem).2 hres
  refine ⟨?_, ?_, ?_⟩
  · rw [hcancel]
  · rw [hcancel]
    dsimp only
    rw [show (newEnrollment st.enrollments sid (pyUpper raw) now).course_code =
        pyUpper raw from rfl]
    rw [hrestore]
  · rw [hcancel]
    dsimp only
    have hskip : cancelFirst
        (st.enrollments.data ++ [newEnrollment st.enrollments sid (pyUpper raw) now])
        (newEnrollment st.enrollments sid (pyUpper raw) now).id now2 =
        st.enrollments.data ++
          [{ newEnrollment st.enrollments sid (pyUpper raw) now with
             status := .cancelled, cancellation_date := some now2 }] := by
      rw [cancelFirst_append]
      · have : cancelFirst [newEnrollment st.enrollments sid (pyUpper raw) now]
            (newEnrollment st.enrollments sid (pyUpper raw) now).id now2 =
            [{ newEnrollment st.enrollments sid (pyUpper raw) now with
               status := .cancelled, cancellation_date := some now2 }] := by
          simp [cancelFirst]
        rw [this]
      · intro x hx
        have hlt := hids x hx
        simp only [newEnrollment]
        omega
    unfold EnrollmentsStorage.find_active_enrollment at hfind ⊢
    unfold afterCreate
    dsimp only
    rw [hskip, List.find?_append, hfind, Option.none_or]
    simp [List.find?_cons, isActivePair]

/-- Witness for C6 on the sample state. -/
theorem C6_roundtrip_witness :
    (cancel_enrollment_service (enroll_in_course sampleState 1 "C1" "t0").2
        (newEnrollment sampleState.enrollments 1 "C1" "t0").id "t1").1 =
      .cancelled { newEnrollment sampleState.enrollments 1 "C1" "t0" with
                   status := .cancelled, cancellation_date := some "t1" } ∧
    (cancel_enrollment_service (enroll_in_course sampleState 1 "C1" "t0").2
        (newEnrollment sampleState.enrollments 1 "C1" "t0").id "t1").2.courses =
      sampleState.courses ∧
    ((cancel_enrollment_service (enroll_in_course sampleState 1 "C1" "t0").2
        (newEnrollment sampleState.enrollments 1 "C1" "t0").id
        "t1").2.enrollments.find_active_enrollment 1 (pyUpper "C1")) = none :=
  C6_enroll_cancel_roundtrip sampleState (enroll_in_course sampleState 1 "C1" "t0").2 1 "C1"
    "t0" "t1" (newEnrollment sampleState.enrollments 1 "C1" "t0")
    (by decide) (by decide) (by decide)

/-- C9: the available-combinations listing contains an entry for a
(student, course) pair exactly when the student exists, some course with
that code has available_slots > 0, and no ACTIVE enrollment exists for the
pair — every qualifying cross-product element appears and no other does. -/
theorem C9_available_combinations_exact (st : SystemState) (sid : Nat) (code : String) :
    (∃ combo ∈ get_available_combinations st,
        combo.student_id = sid ∧ combo.course_code = code) ↔
    ((∃ s ∈ st.students, s.id = sid) ∧
     (∃ c ∈ st.courses.data, c.code = code ∧ 0 < c.available_slots) ∧
     st.enrollments.find_active_enrollment sid code = none) := by
  unfold get_available_combinations
  constructor
  · rintro ⟨combo, hmem, hsid, hcode⟩
    rw [List.mem_flatMap] at hmem
    obtain ⟨s, hs, hmem2⟩ := hmem
    rw [List.mem_filterMap] at hmem2
    obtain ⟨c, hcm, hcond⟩ := hmem2
    rw [Option.ite_none_right_eq_some] at hcond
    obtain ⟨⟨hnone, hpos⟩, hcombo⟩ := hcond
    obtain rfl := Option.some.inj hcombo
    refine ⟨⟨s, hs, hsid⟩, ⟨c, hcm, hcode, hpos⟩, ?_⟩
    rw [← hsid, ← hcode]
    exact hnone
  · rintro ⟨⟨s, hs, hsid⟩, ⟨c, hcm, hcode, hpos⟩, hnone⟩
    refine ⟨{ student_id := s.id, student_name := s.name, course_code := c.code,
              course_name := c.name, available_slots := c.available_slots },
            ?_, hsid, hcode⟩
    rw [List.mem_flatMap]
    refine ⟨s, hs, ?_⟩
    rw [List.mem_filterMap]
    refine ⟨c, hcm, ?_⟩
    rw [Option.ite_none_right_eq_some]
    refine ⟨⟨?_, hpos⟩, rfl⟩
    rw [hsid, hcode]
    exact hnone
